import Mathlib

/-!
Verification of the sp1-project-template proving pipeline.

Shallow embedding of the three Rust sources:
* `src/program/src/main.rs` — the provable computation kernel;
* `src/script/src/bin/network_evm.rs` — the proving orchestrator and
  artifact packager;
* `src/script/src/bin/verify_onchain.rs` — the on-chain verification client.

Machine integers (`u32`) are embedded as `Nat` with explicit `% 2 ^ 32`
where wraparound matters; fallible operations return `Option` / `Except`;
the external prover backend, the filesystem and the RPC endpoint are
embedded as explicit environment records, so each driver becomes a pure
function of its inputs and its environment.
-/

namespace SP1Template

/-- Modelled from the spec: the `fibonacci` function of the library crate
(`fibonacci_lib`, whose source is not under `src/`).  Per the spec's data
model it returns the pair `(a, b)` with `a = fib(n-1)` (`0` when `n = 0`)
and `b = fib(n)`: `(0, 1)` at `n = 0`, `(1, 1)` at `n = 1`, and iterated
pair steps on `uint32` values (wraparound at `2 ^ 32`) thereafter; the
spec's concrete scenario fixes `fibonacci 10 = (55, 89)`. -/
def fibonacci : Nat → Nat × Nat
  | 0 => (0, 1)
  | n + 1 =>
      let p := fibonacci n
      (p.2, (p.1 + p.2) % 4294967296)

/-- Both components of the Fibonacci pair are `uint32` values. -/
theorem fibonacci_lt (n : Nat) :
    (fibonacci n).1 < 4294967296 ∧ (fibonacci n).2 < 4294967296 := by
  induction n with
  | zero => exact ⟨by decide, by decide⟩
  | succ n ih =>
      refine ⟨ih.2, ?_⟩
      exact Nat.mod_lt _ (by decide)

/-- Modelled from the spec: one field of the fixed-layout ABI schema
`(uint32 n, uint32 a, uint32 b)` — a 32-byte word holding 28 zero bytes
followed by the four big-endian value bytes, as produced by
`PublicValuesStruct::abi_encode` (the struct lives in `fibonacci_lib`,
not under `src/`). -/
def encodeWord (x : Nat) : List Nat :=
  List.replicate 28 0 ++
    [x / 16777216 % 256, x / 65536 % 256, x / 256 % 256, x % 256]

/-- Modelled from the spec: `PublicValuesStruct::abi_encode` — the
canonical byte encoding of the triple `(n, a, b)`, three fixed-layout
32-byte words. -/
def abi_encode (n a b : Nat) : List Nat :=
  encodeWord n ++ encodeWord a ++ encodeWord b

/-- Decode one 32-byte ABI word into a `uint32`: validation (the `true`
argument of `abi_decode` in `network_evm.rs`) requires the 28 leading
padding bytes to be zero. -/
def decodeWord (w : List Nat) : Option Nat :=
  if w.length = 32 ∧ (w.take 28).all (fun b => b == 0) then
    match w.drop 28 with
    | [b0, b1, b2, b3] => some (((b0 * 256 + b1) * 256 + b2) * 256 + b3)
    | _ => none
  else none

/-- Modelled from the spec: `PublicValuesStruct::abi_decode` with
validation — reads back the triple `(n, a, b)` from the 96-byte
fixed-layout encoding. -/
def abi_decode (bs : List Nat) : Option (Nat × Nat × Nat) :=
  if bs.length = 96 then
    match decodeWord (bs.take 32), decodeWord ((bs.drop 32).take 32),
        decodeWord (bs.drop 64) with
    | some n, some a, some b => some (n, a, b)
    | _, _, _ => none
  else none

theorem encodeWord_length (x : Nat) : (encodeWord x).length = 32 := by
  simp [encodeWord]

/-- Decoding one encoded word recovers the `uint32` value. -/
theorem decodeWord_encodeWord (x : Nat) (hx : x < 4294967296) :
    decodeWord (encodeWord x) = some x := by
  have hlist : encodeWord x =
      [0, 0, 0, 0, 0, 0, 0, 0, 0, 0, 0, 0, 0, 0, 0, 0, 0, 0, 0, 0, 0, 0,
       0, 0, 0, 0, 0, 0,
       x / 16777216 % 256, x / 65536 % 256, x / 256 % 256, x % 256] := by
    simp [encodeWord, List.replicate]
  rw [hlist]
  simp only [decodeWord]
  norm_num
  omega

/-- The ABI round-trip law on `uint32` triples. -/
theorem abi_decode_encode (n a b : Nat)
    (hn : n < 4294967296) (ha : a < 4294967296) (hb : b < 4294967296) :
    abi_decode (abi_encode n a b) = some (n, a, b) := by
  have hn32 := encodeWord_length n
  have ha32 := encodeWord_length a
  have hb32 := encodeWord_length b
  have htake : (abi_encode n a b).take 32 = encodeWord n := by
    simp [abi_encode, List.take_append_eq_append_take, hn32]
  have hdrop : (abi_encode n a b).drop 32 = encodeWord a ++ encodeWord b := by
    simp [abi_encode, List.drop_append_eq_append_drop, hn32]
  have htake2 : ((abi_encode n a b).drop 32).take 32 = encodeWord a := by
    rw [hdrop]; simp [List.take_append_eq_append_take, ha32]
  have hdrop2 : (abi_encode n a b).drop 64 = encodeWord b := by
    simp [abi_encode, List.drop_append_eq_append_drop, hn32, ha32]
  have hlen : (abi_encode n a b).length = 96 := by
    simp [abi_encode, hn32, ha32, hb32]
  rw [abi_decode, if_pos hlen, htake, htake2, hdrop2,
    decodeWord_encodeWord n hn, decodeWord_encodeWord a ha,
    decodeWord_encodeWord b hb]

/-- The two ways the kernel's provable execution can abort: the input
bound check at the top of `main`, or one of the base-case self-check
assertions. -/
inductive KernelError where
  | inputTooLarge
  | assertFailed
  deriving DecidableEq

/-- `main` of `src/program/src/main.rs`: read `n`, abort when
`n > 10000`, compute the Fibonacci pair, run the base-case assertions for
`n ∈ \x7b0, 1\x7d`, then commit the ABI encoding of `(n, a, b)` as public
values.  The committed byte slice is the `ok` payload. -/
def kernelMain (n : Nat) : Except KernelError (List Nat) :=
  if n > 10000 then .error .inputTooLarge
  else
    let p := fibonacci n
    if n = 0 then
      if p.1 = 0 ∧ p.2 = 1 then .ok (abi_encode n p.1 p.2)
      else .error .assertFailed
    else if n = 1 then
      if p.1 = 1 ∧ p.2 = 1 then .ok (abi_encode n p.1 p.2)
      else .error .assertFailed
    else .ok (abi_encode n p.1 p.2)

/-- `n.saturating_sub(1)` as printed by the kernel's diagnostic line
(`src/program/src/main.rs` line 44); `Nat` subtraction is exactly
saturating subtraction. -/
def kernelDisplayIndex (n : Nat) : Nat := n - 1

/-! ## Proving orchestrator (`src/script/src/bin/network_evm.rs`) -/

/-- The command-line arguments of `network_evm.rs` (`struct Args`). -/
structure Args where
  n : Nat
  system : String
  save_artifacts : Bool
  output_dir : String

/-- Outcomes of the external calls `main` makes, embedded as an explicit
environment: whether `client.execute(...).run()` succeeds and what output
bytes it returns, and whether proving, local verification and artifact
writing succeed. -/
structure ProverEnv where
  executeOk : Bool
  executeOutput : List Nat
  proveOk : Bool
  verifyOk : Bool
  saveOk : Bool

/-- The externally visible operations of `main` in `network_evm.rs`, in
program order: `client.setup`, `client.execute`, decoding the committed
public values, `client.prove(...).groth16()/.plonk()`, `client.verify`,
and `save_proof_artifacts`. -/
inductive PipelineEvent where
  | setup
  | execute
  | decode
  | prove
  | verifyProof
  | saveArtifacts
  deriving DecidableEq

/-- How a run of `main` in `network_evm.rs` ends: `configError` is the
`std::process::exit(1)` taken on an unrecognized `--system`; the `Panic`
outcomes are the `.unwrap()` / `.expect(...)` calls on each fallible
step; `success` is falling through to the final summary. -/
inductive PipelineOutcome where
  | configError
  | executePanic
  | decodePanic
  | provePanic
  | verifyPanic
  | savePanic
  | success
  deriving DecidableEq

/-- `main` of `network_evm.rs` as a pure function of the arguments and
the backend environment, returning the trace of attempted operations and
the final outcome.  Mirrors the source order: validate `--system`, then
setup, local execution, decoding of the public values, proof generation,
local proof verification, and (when requested) artifact saving. -/
def pipeline (args : Args) (env : ProverEnv) :
    List PipelineEvent × PipelineOutcome :=
  if args.system ≠ "groth16" ∧ args.system ≠ "plonk" then
    ([], .configError)
  else if env.executeOk then
    match abi_decode env.executeOutput with
    | none => ([.setup, .execute, .decode], .decodePanic)
    | some _ =>
        if env.proveOk then
          if env.verifyOk then
            if args.save_artifacts then
              if env.saveOk then
                ([.setup, .execute, .decode, .prove, .verifyProof,
                  .saveArtifacts], .success)
              else
                ([.setup, .execute, .decode, .prove, .verifyProof,
                  .saveArtifacts], .savePanic)
            else
              ([.setup, .execute, .decode, .prove, .verifyProof], .success)
          else
            ([.setup, .execute, .decode, .prove, .verifyProof], .verifyPanic)
        else
          ([.setup, .execute, .decode, .prove], .provePanic)
  else
    ([.setup, .execute], .executePanic)

/-! ## Artifact packager (`save_proof_artifacts` in `network_evm.rs`) -/

/-- The five artifact file paths written by `save_proof_artifacts`. -/
structure BundlePaths where
  proofFile : String
  publicValuesFile : String
  vkeyFile : String
  callDataFile : String
  summaryFile : String
  deriving DecidableEq

/-- The filenames used by `save_proof_artifacts`, exactly as built by its
`format!` calls: the proof file embeds `system` and `n`, the public
values, call data and summary files embed only `n`, and the verification
key file is a fixed name. -/
def bundlePaths (output_dir system : String) (n : Nat) : BundlePaths where
  proofFile := output_dir ++ "/proof_" ++ system ++ "_n" ++ Nat.repr n ++ ".bin"
  publicValuesFile := output_dir ++ "/public_values_n" ++ Nat.repr n ++ ".bin"
  vkeyFile := output_dir ++ "/verification_key.txt"
  callDataFile := output_dir ++ "/contract_call_data_n" ++ Nat.repr n ++ ".json"
  summaryFile := output_dir ++ "/summary_n" ++ Nat.repr n ++ ".txt"

/-- A proof handed back by the backend: `proof.bytes()` and
`proof.public_values.to_vec()`. -/
structure ProofData where
  bytes : List Nat
  public_values : List Nat

/-- One byte rendered as two lowercase hex digits (`hex::encode`). -/
def hexDigitChar (k : Nat) : Char :=
  if k < 10 then Char.ofNat (48 + k) else Char.ofNat (87 + k)

/-- `hex::encode`: lowercase hex string of a byte sequence. -/
def hexEncode (bs : List Nat) : String :=
  String.mk (bs.foldr
    (fun b acc => hexDigitChar (b / 16) :: hexDigitChar (b % 16) :: acc) [])

/-- The contract call-data document built by `generate_contract_call_data`
in `network_evm.rs`: a typed record of the fields of its `json!` object
(function name, hex public values, hex proof bytes, expected `n`, the two
fixed interface strings and the fixed decoding note). -/
structure CallDataDoc where
  function : String
  publicValues : String
  proofBytes : String
  expected_n : Nat
  decodedFrom : String
  functionSignature : String
  returns : String
  deriving DecidableEq

/-- `generate_contract_call_data(proof, n)`: builds the call-data document
from the proof's public values, the proof bytes and `n` alone. -/
def generate_contract_call_data (proof : ProofData) (n : Nat) : CallDataDoc where
  function := "verifyFibonacciProof"
  publicValues := "0x" ++ hexEncode proof.public_values
  proofBytes := "0x" ++ hexEncode proof.bytes
  expected_n := n
  decodedFrom := "Use abi.decode(publicValues, (PublicValuesStruct))"
  functionSignature := "verifyFibonacciProof(bytes,bytes)"
  returns := "(uint32,uint32,uint32)"

/-- Deterministic serialization of the call-data document (the
`serde_json::to_string_pretty` step), rendering the same JSON object
shape the source constructs. -/
def renderCallData (d : CallDataDoc) : String :=
  "\x7b \"function\": \"" ++ d.function ++
    "\", \"parameters\": \x7b \"publicValues\": \"" ++ d.publicValues ++
    "\", \"proofBytes\": \"" ++ d.proofBytes ++
    "\" \x7d, \"expected_output\": \x7b \"n\": " ++ Nat.repr d.expected_n ++
    ", \"decoded_from_public_values\": \"" ++ d.decodedFrom ++
    "\" \x7d, \"contract_interface\": \x7b \"function_signature\": \"" ++
    d.functionSignature ++ "\", \"returns\": \"" ++ d.returns ++
    "\" \x7d \x7d"

/-! ## On-chain verification client (`src/script/src/bin/verify_onchain.rs`) -/

/-- `hex` digit value of one character, as accepted by `hex::decode`. -/
def hexDigitValue (c : Char) : Option Nat :=
  if 48 ≤ c.toNat ∧ c.toNat ≤ 57 then some (c.toNat - 48)
  else if 97 ≤ c.toNat ∧ c.toNat ≤ 102 then some (c.toNat - 87)
  else if 65 ≤ c.toNat ∧ c.toNat ≤ 70 then some (c.toNat - 55)
  else none

/-- `hex::decode` on a character list: fails on odd length or on any
non-hex character. -/
def hexDecodeChars : List Char → Option (List Nat)
  | [] => some []
  | [_] => none
  | c1 :: c2 :: rest =>
      match hexDigitValue c1, hexDigitValue c2, hexDecodeChars rest with
      | some h, some l, some bs => some ((h * 16 + l) :: bs)
      | _, _, _ => none

/-- `s.strip_prefix("0x").unwrap_or(s)`: drop a leading `0x` marker when
present. -/
def stripHexMarker : List Char → List Char
  | '0' :: 'x' :: rest => rest
  | cs => cs

/-- `hex::decode(s.strip_prefix("0x").unwrap_or(s))`. -/
def hexDecode (s : String) : Option (List Nat) :=
  hexDecodeChars (stripHexMarker s.data)

/-- The environment of one run of `verify_onchain.rs`: whether the
call-data document exists, whether it reads and parses as JSON, the two
extracted string fields, and the outcomes of the two remote calls (the
`getProgramVKey` query and the `verifyFibonacciProof` call, the latter
returning the decoded `(n, a, b)` on success). -/
structure ClientEnv where
  callDataExists : Bool
  parseOk : Bool
  proofBytesField : Option String
  publicValuesField : Option String
  vkeyCallOk : Bool
  verifyResult : Option (Nat × Nat × Nat)

/-- How a run of `main` in `verify_onchain.rs` ends.  `artifactNotFound`
is the early `return Ok(())` branch that reports the missing call-data
document and instructs the user to run proving first; `verified` carries
the decoded triple and the result of the hardcoded sanity check;
`verificationFailed` is the `Err` arm of the contract call. -/
inductive ClientOutcome where
  | artifactNotFound
  | parseError
  | missingField
  | hexError
  | transportError
  | verified (n a b : Nat) (accepted : Bool)
  | verificationFailed
  deriving DecidableEq

/-- The sanity check on the decoded response in `verify_onchain.rs`:
`response.n == 10 && response.a == 55 && response.b == 89`. -/
def sanityCheck (n a b : Nat) : Bool :=
  n == 10 && a == 55 && b == 89

/-- `main` of `verify_onchain.rs` as a pure function of its environment:
check that the call-data document exists (early recoverable return when
absent), parse it, extract and hex-decode the two parameter fields, query
the contract verification key, call `verifyFibonacciProof`, and on
success run the hardcoded sanity check on the decoded `(n, a, b)`. -/
def verifyOnchainMain (env : ClientEnv) : ClientOutcome :=
  if ¬ env.callDataExists then .artifactNotFound
  else if ¬ env.parseOk then .parseError
  else
    match env.proofBytesField, env.publicValuesField with
    | some pb, some pv =>
        match hexDecode pb, hexDecode pv with
        | some _, some _ =>
            if ¬ env.vkeyCallOk then .transportError
            else
              match env.verifyResult with
              | some (n, a, b) => .verified n a b (sanityCheck n a b)
              | none => .verificationFailed
        | _, _ => .hexError
    | _, _ => .missingField

/-- The spec's Fibonacci relation on a decoded triple, stated in the
spec's own words for comparison with the client's check: `a = fib(n-1)`
(`0` when `n = 0`) and `b = fib(n)`, i.e. the triple agrees with the
kernel's Fibonacci pair at `n`. -/
def specFibRelation (n a b : Nat) : Prop :=
  fibonacci n = (a, b)

/-- `response.n - 1` in the success branch of `verify_onchain.rs`:
unchecked Rust `u32` subtraction, well-defined only when no underflow
occurs. -/
def clientDisplayIndex (n : Nat) : Option Nat :=
  if 1 ≤ n then some (n - 1) else none

/-! ## Claim theorems -/

/-- C1: for every `n` in `[0, 10000]` the kernel commits the ABI encoding
of the triple `(n, a, b)` it computed, and decoding those bytes with the
fixed-layout `(uint32, uint32, uint32)` schema reproduces exactly that
triple. -/
theorem kernel_commit_roundtrip (n : Nat) (h : n ≤ 10000) :
    kernelMain n = .ok (abi_encode n (fibonacci n).1 (fibonacci n).2) ∧
    abi_decode (abi_encode n (fibonacci n).1 (fibonacci n).2) =
      some (n, (fibonacci n).1, (fibonacci n).2) := by
  have hb := fibonacci_lt n
  constructor
  · have hgt : ¬ n > 10000 := by omega
    rcases n with _ | n
    · rfl
    · rcases n with _ | n
      · rfl
      · simp only [kernelMain, if_neg hgt]
        norm_num
  · exact abi_decode_encode n _ _ (by omega) hb.1 hb.2

/-- Witness for C1 at `n = 10`. -/
theorem kernel_commit_roundtrip_witness :
    kernelMain 10 = .ok (abi_encode 10 (fibonacci 10).1 (fibonacci 10).2) ∧
    abi_decode (abi_encode 10 (fibonacci 10).1 (fibonacci 10).2) =
      some (10, (fibonacci 10).1, (fibonacci 10).2) :=
  kernel_commit_roundtrip 10 (by decide)

/-- C2: the kernel aborts with the input-bound panic exactly on inputs
`n > 10000`; for `n ≤ 10000` the abort branch of the input validation is
never taken. -/
theorem kernel_abort_iff_large (n : Nat) :
    (n > 10000 → kernelMain n = .error .inputTooLarge) ∧
    (n ≤ 10000 → kernelMain n ≠ .error .inputTooLarge) := by
  constructor
  · intro h
    simp [kernelMain, h]
  · intro h
    have hgt : ¬ n > 10000 := by omega
    simp only [kernelMain, if_neg hgt]
    split
    · split
      · simp
      · simp
    · split
      · split
        · simp
        · simp
      · simp

/-- Witness for C2 at `n = 10001` (abort) and `n = 10` (no abort). -/
theorem kernel_abort_iff_large_witness :
    kernelMain 10001 = .error .inputTooLarge ∧
    kernelMain 10 ≠ .error .inputTooLarge :=
  ⟨(kernel_abort_iff_large 10001).1 (by decide),
   (kernel_abort_iff_large 10).2 (by decide)⟩

/-- C3: the kernel's pair is `(0, 1)` at `n = 0` and `(1, 1)` at `n = 1`,
and on both inputs the base-case self-check assertions pass, so the
kernel commits the encoded triple instead of aborting. -/
theorem kernel_base_cases :
    fibonacci 0 = (0, 1) ∧ fibonacci 1 = (1, 1) ∧
    kernelMain 0 = .ok (abi_encode 0 0 1) ∧
    kernelMain 1 = .ok (abi_encode 1 1 1) :=
  ⟨rfl, rfl, rfl, rfl⟩

/-- C10: the client's `response.n - 1` is unchecked `u32` subtraction,
well-defined exactly when the decoded `n` is at least `1` and underflowing
at `n = 0`, whereas the kernel's display index uses saturating
subtraction and yields `0` at `n = 0`. -/
theorem client_display_index_underflow (n : Nat) :
    (1 ≤ n → clientDisplayIndex n = some (n - 1)) ∧
    clientDisplayIndex 0 = none ∧
    kernelDisplayIndex 0 = 0 ∧
    kernelDisplayIndex n = n - 1 := by
  refine ⟨fun h => ?_, rfl, rfl, rfl⟩
  simp [clientDisplayIndex, h]

/-- Witness for C10 at `n = 10`. -/
theorem client_display_index_underflow_witness :
    clientDisplayIndex 10 = some 9 ∧
    clientDisplayIndex 0 = none ∧
    kernelDisplayIndex 0 = 0 ∧
    kernelDisplayIndex 10 = 9 :=
  (client_display_index_underflow 10).imp (fun h => h (by decide)) id

/-- `true` exactly on the client outcomes in which the remote
verification call returned successfully. -/
def ClientOutcome.isSuccess : ClientOutcome → Bool
  | .verified _ _ _ _ => true
  | _ => false

/-- C4: when the call-data document is absent, the client run ends in the
recoverable artifact-not-found outcome — a reported error value, not a
successful verification and not an abort of the run. -/
theorem client_artifact_not_found (env : ClientEnv)
    (h : env.callDataExists = false) :
    verifyOnchainMain env = .artifactNotFound ∧
    (verifyOnchainMain env).isSuccess = false := by
  have hmain : verifyOnchainMain env = .artifactNotFound := by
    simp [verifyOnchainMain, h]
  exact ⟨hmain, by rw [hmain]; rfl⟩

/-- Witness for C4: a concrete environment with no call-data document. -/
theorem client_artifact_not_found_witness :
    verifyOnchainMain ⟨false, true, none, none, true, none⟩ =
      .artifactNotFound ∧
    (verifyOnchainMain ⟨false, true, none, none, true, none⟩).isSuccess =
      false :=
  client_artifact_not_found ⟨false, true, none, none, true, none⟩ rfl

/-- C6 counterexample: the triple `(n, a, b) = (2, 1, 2)` satisfies the
spec's Fibonacci relation, yet the client's sanity check rejects it: on a
successful remote call returning `(2, 1, 2)` the client flags the values
as unexpected, so acceptance is not equivalent to the Fibonacci
relation. -/
theorem client_sanity_check_not_relation :
    specFibRelation 2 1 2 ∧
    sanityCheck 2 1 2 = false ∧
    verifyOnchainMain
        ⟨true, true, some "0x00", some "0x00", true, some (2, 1, 2)⟩ =
      .verified 2 1 2 false :=
  ⟨rfl, rfl, rfl⟩

/-- C6 (amended): the client's sanity check accepts exactly the literal
triple `(10, 55, 89)` — which does satisfy the Fibonacci relation — and
any other triple is flagged as unexpected, even ones satisfying the
relation. -/
theorem client_sanity_check_exact (n a b : Nat) :
    (sanityCheck n a b = true ↔ n = 10 ∧ a = 55 ∧ b = 89) ∧
    specFibRelation 10 55 89 := by
  constructor
  · simp [sanityCheck, and_assoc]
  · rfl

/-- Witness for C6 (amended) at the accepted triple `(10, 55, 89)`. -/
theorem client_sanity_check_exact_witness :
    (sanityCheck 10 55 89 = true ↔
      (10 : Nat) = 10 ∧ (55 : Nat) = 55 ∧ (89 : Nat) = 89) ∧
    specFibRelation 10 55 89 :=
  client_sanity_check_exact 10 55 89

/-- C5 counterexample: two runs that differ only in the proof system
(`groth16` vs `plonk`, same `n = 10`) receive the same public-values
filename, and two runs that differ only in `n` (`10` vs `11`) receive the
same verification-key filename — so not every artifact filename
incorporates both `system` and `n`, and such runs do collide on artifact
files. -/
theorem bundle_paths_collision :
    (bundlePaths "artifacts" "groth16" 10).publicValuesFile =
      (bundlePaths "artifacts" "plonk" 10).publicValuesFile ∧
    (bundlePaths "artifacts" "groth16" 10).vkeyFile =
      (bundlePaths "artifacts" "groth16" 11).vkeyFile ∧
    ("groth16" : String) ≠ "plonk" ∧ (10 : Nat) ≠ 11 :=
  ⟨rfl, rfl, by decide, by decide⟩

/-- C5 (amended): all five filenames are pure functions of
`(system, n)`, but only the proof filename incorporates the proof system:
runs with the two valid systems and equal `n` get distinct proof
filenames yet identical public-values, verification-key, call-data and
summary filenames, and the verification-key filename is independent of
`n` as well. -/
theorem bundle_paths_keying (dir : String) (n m : Nat) :
    (bundlePaths dir "groth16" n).proofFile ≠
      (bundlePaths dir "plonk" n).proofFile ∧
    (bundlePaths dir "groth16" n).publicValuesFile =
      (bundlePaths dir "plonk" n).publicValuesFile ∧
    (bundlePaths dir "groth16" n).vkeyFile =
      (bundlePaths dir "plonk" n).vkeyFile ∧
    (bundlePaths dir "groth16" n).callDataFile =
      (bundlePaths dir "plonk" n).callDataFile ∧
    (bundlePaths dir "groth16" n).summaryFile =
      (bundlePaths dir "plonk" n).summaryFile ∧
    (bundlePaths dir "groth16" n).vkeyFile =
      (bundlePaths dir "groth16" m).vkeyFile := by
  refine ⟨?_, rfl, rfl, rfl, rfl, rfl⟩
  intro hcontra
  have hlen := congrArg String.length hcontra
  simp only [bundlePaths, String.length_append] at hlen
  have h1 : ("groth16" : String).length = 7 := rfl
  have h2 : ("plonk" : String).length = 5 := rfl
  omega

/-- C7: proof generation is attempted only on runs where the local
dry-run execution succeeded and its committed public values decoded
successfully, and in every such trace the setup, execution and decoding
steps precede the proving step. -/
theorem pipeline_execute_before_prove (args : Args) (env : ProverEnv)
    (h : PipelineEvent.prove ∈ (pipeline args env).1) :
    env.executeOk = true ∧
    (abi_decode env.executeOutput).isSome = true ∧
    (pipeline args env).1.take 4 =
      [.setup, .execute, .decode, .prove] := by
  by_cases h1 : args.system ≠ "groth16" ∧ args.system ≠ "plonk"
  · rw [pipeline, if_pos h1] at h
    simp at h
  · by_cases h2 : env.executeOk
    · cases hd : abi_decode env.executeOutput with
      | none =>
          rw [pipeline, if_neg h1, if_pos h2, hd] at h
          simp at h
      | some v =>
          refine ⟨h2, by simp [hd], ?_⟩
          rw [pipeline, if_neg h1, if_pos h2, hd]
          by_cases h3 : env.proveOk <;> by_cases h4 : env.verifyOk <;>
            by_cases h5 : args.save_artifacts <;>
            by_cases h6 : env.saveOk <;>
            simp [h3, h4, h5, h6]
    · rw [pipeline, if_neg h1, if_neg h2] at h
      simp at h

/-- Witness for C7: a fully successful run with `n = 10`. -/
theorem pipeline_execute_before_prove_witness :
    (⟨true, abi_encode 10 55 89, true, true, true⟩ : ProverEnv).executeOk =
      true ∧
    (abi_decode
      (⟨true, abi_encode 10 55 89, true, true, true⟩ : ProverEnv).executeOutput).isSome = true ∧
    (pipeline ⟨10, "groth16", true, "artifacts"⟩
        ⟨true, abi_encode 10 55 89, true, true, true⟩).1.take 4 =
      [.setup, .execute, .decode, .prove] :=
  pipeline_execute_before_prove ⟨10, "groth16", true, "artifacts"⟩
    ⟨true, abi_encode 10 55 89, true, true, true⟩ (by decide)

/-- C8: an unrecognized `--system` value is rejected with the
configuration-error exit before any setup, execution or proving event,
while the two recognized values never take that rejection branch. -/
theorem pipeline_rejects_unknown_system (args : Args) (env : ProverEnv) :
    (args.system ≠ "groth16" ∧ args.system ≠ "plonk" →
      pipeline args env = ([], .configError)) ∧
    (args.system = "groth16" ∨ args.system = "plonk" →
      (pipeline args env).2 ≠ .configError) := by
  constructor
  · intro h
    rw [pipeline, if_pos h]
  · intro h
    have h1 : ¬(args.system ≠ "groth16" ∧ args.system ≠ "plonk") := by
      tauto
    rw [pipeline, if_neg h1]
    by_cases h2 : env.executeOk
    · cases hd : abi_decode env.executeOutput with
      | none => simp [h2, hd]
      | some v =>
          by_cases h3 : env.proveOk <;> by_cases h4 : env.verifyOk <;>
            by_cases h5 : args.save_artifacts <;>
            by_cases h6 : env.saveOk <;>
            simp [h2, hd, h3, h4, h5, h6]
    · simp [h2]

/-- Witness for C8: the unrecognized system `"stark"` is rejected, and
`"groth16"` is not. -/
theorem pipeline_rejects_unknown_system_witness :
    pipeline ⟨10, "stark", true, "artifacts"⟩
        ⟨true, [], true, true, true⟩ = ([], .configError) ∧
    (pipeline ⟨10, "groth16", true, "artifacts"⟩
        ⟨true, [], true, true, true⟩).2 ≠ .configError :=
  ⟨(pipeline_rejects_unknown_system ⟨10, "stark", true, "artifacts"⟩
      ⟨true, [], true, true, true⟩).1 (by decide),
   (pipeline_rejects_unknown_system ⟨10, "groth16", true, "artifacts"⟩
      ⟨true, [], true, true, true⟩).2 (by decide)⟩

/-- C9: the contract call-data document is a deterministic function of
the proof (its bytes and public values) and `n` alone — two invocations
on equal inputs produce the identical document record and byte-for-byte
identical serialized content. -/
theorem call_data_deterministic (p₁ p₂ : ProofData) (n₁ n₂ : Nat)
    (hb : p₁.bytes = p₂.bytes)
    (hpv : p₁.public_values = p₂.public_values) (hn : n₁ = n₂) :
    generate_contract_call_data p₁ n₁ = generate_contract_call_data p₂ n₂ ∧
    renderCallData (generate_contract_call_data p₁ n₁) =
      renderCallData (generate_contract_call_data p₂ n₂) := by
  cases p₁
  cases p₂
  cases hb
  cases hpv
  cases hn
  exact ⟨rfl, rfl⟩

/-- Witness for C9 at a concrete proof and `n = 10`. -/
theorem call_data_deterministic_witness :
    generate_contract_call_data ⟨[1, 2], [3, 4]⟩ 10 =
      generate_contract_call_data ⟨[1, 2], [3, 4]⟩ 10 ∧
    renderCallData (generate_contract_call_data ⟨[1, 2], [3, 4]⟩ 10) =
      renderCallData (generate_contract_call_data ⟨[1, 2], [3, 4]⟩ 10) :=
  call_data_deterministic ⟨[1, 2], [3, 4]⟩ ⟨[1, 2], [3, 4]⟩ 10 10 rfl rfl rfl

end SP1Template
